import Mathlib

/-
Verification of trading_api_wrappers/base.py: the Server URL builder, the
Client request dispatcher (throttle, sign hook, body encoding, response
decoding, retry policy) and the _Enum lookup helper, shallowly embedded in
Lean. Python dict arguments are modelled as association lists, exceptions as
an Except error type, and the wall clock as an explicit integer millisecond
parameter (Python millisecond timestamps are integer-valued and well below
2^53, so float arithmetic on them in throttle is exact).
-/

/-- Python values that can appear inside a request body mapping. -/
inductive PyVal where
  | pynone
  | pybool (b : Bool)
  | pyint (n : Int)
  | pystr (s : String)
  deriving DecidableEq, Repr

/-- Decoded JSON values, as returned by response.json(). -/
inductive Json where
  | null
  | jbool (b : Bool)
  | num (n : Int)
  | str (s : String)
  | arr (xs : List Json)
  | obj (kvs : List (String × Json))
  deriving Repr

/-- Python truthiness, bool(x), restricted to decoded JSON values. -/
def jsonTruthy : Json → Bool
  | .null => false
  | .jbool b => b
  | .num n => n != 0
  | .str s => s != ""
  | .arr xs => !xs.isEmpty
  | .obj kvs => !kvs.isEmpty

/-- Python dict lookup d.get(k), on an association-list model of a dict. -/
def dictGet (kvs : List (String × Json)) (k : String) : Option Json :=
  (kvs.find? (fun kv => kv.1 == k)).map (fun kv => kv.2)

/-- An HTTP response as the dispatcher consumes it: its status code and the
result of attempting to parse its body as JSON (none when the body is not
valid JSON, so that response.json() raises). -/
structure Response where
  status_code : Nat
  jsonBody : Option Json

/-- Exceptions raised by the dispatcher, from the errors module as used in
base.py: InvalidResponse carries the raw response object, DecodeError
carries nothing. -/
inductive ClientError where
  | invalidResponse (r : Response)
  | decodeError

/-- Server from base.py: holds PROTOCOL, HOST, VERSION and the derived URL. -/
structure Server where
  PROTOCOL : String
  HOST : String
  VERSION : Option String
  URL : String

/-- Python truthiness of an optional string, as tested by `if version:`. -/
def optStrTruthy : Option String → Bool
  | none => false
  | some s => s != ""

/-- Server.__init__: url starts as protocol://host and gains /version only
when version is truthy. -/
def mkServer (protocol host : String) (version : Option String) : Server :=
  let url := protocol ++ "://" ++ host
  let url := if optStrTruthy version then url ++ "/" ++ version.getD "" else url
  ⟨protocol, host, version, url⟩

/-- Modelled from the spec: clean_parameters lives in
trading_api_wrappers.common, which is not among the provided sources; the
spec states that the body mapping is cleaned by removing None-valued
entries. -/
def clean_parameters (data : List (String × PyVal)) : List (String × PyVal) :=
  data.filter (fun kv => kv.2 ≠ PyVal.pynone)

/-- Serialization of one body value, as json.dumps renders it. -/
def dumpsVal : PyVal → String
  | .pynone => "null"
  | .pybool true => "true"
  | .pybool false => "false"
  | .pyint n => toString n
  | .pystr s => "\x22" ++ s ++ "\x22"

/-- Serialization of a body mapping, as json.dumps renders a dict. -/
def dumps (kvs : List (String × PyVal)) : String :=
  "\x7b" ++
    String.intercalate ", "
      (kvs.map (fun kv => "\x22" ++ kv.1 ++ "\x22: " ++ dumpsVal kv.2)) ++
  "\x7d"

/-- Client._encode_data: clean the mapping (after substituting the empty
mapping for None), then produce JSON text when the cleaned mapping is
truthy; a falsy (empty) cleaned mapping is returned as-is, which the
transport treats as an absent body, modelled here as none. -/
def encode_data (data : Option (List (String × PyVal))) : Option String :=
  let d := clean_parameters (data.getD [])
  if d.isEmpty then none else some (dumps d)

/-- C6: mkServer builds protocol://host with no version, protocol://host/version
with a non-empty version, the concrete examples from the spec evaluate as
stated, and every stored field equals the construction input. -/
theorem server_url_construction (protocol host version : String)
    (hv : version ≠ "") :
    (mkServer protocol host none).URL = protocol ++ "://" ++ host
    ∧ (mkServer protocol host (some version)).URL
        = protocol ++ "://" ++ host ++ "/" ++ version
    ∧ (mkServer "https" "api.example.com" (some "v2")).URL
        = "https://api.example.com/v2"
    ∧ (mkServer "https" "api.example.com" none).URL = "https://api.example.com"
    ∧ (mkServer protocol host (some version)).PROTOCOL = protocol
    ∧ (mkServer protocol host (some version)).HOST = host
    ∧ (mkServer protocol host (some version)).VERSION = some version := by
  refine ⟨rfl, ?_, rfl, rfl, rfl, rfl, rfl⟩
  simp [mkServer, optStrTruthy, hv]

/-- Witness for C6 at the concrete inputs from the spec. -/
theorem server_url_construction_witness :
    (mkServer "https" "api.example.com" (some "v2")).URL
      = "https://api.example.com/v2"
    ∧ (mkServer "https" "api.example.com" none).URL = "https://api.example.com" :=
  ⟨(server_url_construction "https" "api.example.com" "v2" (by decide)).2.2.1,
   (server_url_construction "https" "api.example.com" "v2" (by decide)).2.2.2.1⟩

/-- C9: constructing a Server with the falsy empty-string version yields the
same URL as passing no version at all, with no trailing slash. -/
theorem falsy_version_same_as_none (protocol host : String) :
    (mkServer protocol host (some "")).URL = (mkServer protocol host none).URL
    ∧ (mkServer protocol host (some "")).URL = protocol ++ "://" ++ host := by
  exact ⟨rfl, rfl⟩

/-- C7: the dispatcher produces JSON body text exactly when the body mapping
is non-empty after removing None-valued entries; otherwise the body is
absent, and when text is produced it is the serialization of the cleaned
mapping. -/
theorem encode_data_iff_nonempty_cleaned (data : Option (List (String × PyVal))) :
    ((∃ s, encode_data data = some s) ↔ clean_parameters (data.getD []) ≠ [])
    ∧ (encode_data data = none ↔ clean_parameters (data.getD []) = [])
    ∧ (clean_parameters (data.getD []) ≠ [] →
        encode_data data = some (dumps (clean_parameters (data.getD [])))) := by
  unfold encode_data
  rcases h : clean_parameters (data.getD []) with _ | ⟨kv, rest⟩ <;>
    simp [List.isEmpty]

/-- Witness for C7: a body whose only entry is None-valued is treated as
absent, and a body with one surviving entry is serialized. -/
theorem encode_data_witness :
    encode_data (some [("a", PyVal.pynone)]) = none
    ∧ encode_data (some [("a", PyVal.pyint 1)]) = some "\x7b\x22a\x22: 1\x7d" :=
  ⟨((encode_data_iff_nonempty_cleaned (some [("a", PyVal.pynone)])).2.1).mpr (by decide),
   (encode_data_iff_nonempty_cleaned (some [("a", PyVal.pyint 1)])).2.2 (by decide)⟩

/-- Header and parameter mappings as handed to the transport. -/
def StrMap : Type := List (String × String)

/-- Result of the sign hook: a mapping with the optional keys headers,
params and data; a field is some exactly when the returned dict contains
that key. The default Client.sign returns the empty mapping (all none). -/
structure SignResult where
  headers : Option StrMap
  params : Option StrMap
  data : Option String

/-- Client.sign default implementation: return the empty mapping. -/
def defaultSign (_method _path : String) (_params : Option StrMap)
    (_data : Option String) : SignResult :=
  ⟨none, none, none⟩

/-- Client.url_for: join the server base URL and the endpoint with a slash. -/
def url_for (server : Server) (endpoint : String) : String :=
  server.URL ++ "/" ++ endpoint

/-- Path component of a URL, as urlparse(url).path extracts it for a
scheme://host/path URL: everything from the first slash after the
scheme-separated host. -/
def urlPath (url : String) : String :=
  let rest := String.intercalate "://" ((url.splitOn "://").drop 1)
  String.mk (rest.toList.dropWhile (fun c => c ≠ '/'))

/-- Client.url_path_for: the full URL together with its path component. -/
def url_path_for (server : Server) (endpoint : String) : String × String :=
  let url := url_for server endpoint
  (url, urlPath url)

/-- The outgoing HTTP request exactly as session.request receives it in
Client._request. -/
structure SentRequest where
  method : String
  url : String
  headers : Option StrMap
  params : Option StrMap
  data : Option String
  verify : Bool
  timeout : Nat

/-- Request preparation in Client._request (lines 74 to 86): resolve the
URL and path, encode the body, call the sign hook, then pass to the
transport request.get with its per-key defaults: headers has no default,
params defaults to the caller params, data defaults to the encoded body. -/
def buildRequest (server : Server)
    (sign : String → String → Option StrMap → Option String → SignResult)
    (timeout : Nat) (method endpoint : String)
    (params : Option StrMap) (data : Option (List (String × PyVal))) :
    SentRequest :=
  let up := url_path_for server endpoint
  let d := encode_data data
  let request := sign method up.2 params d
  { method := method
    url := up.1
    headers := request.headers
    params := match request.params with
      | some p => some p
      | none => params
    data := match request.data with
      | some s => some s
      | none => d
    verify := true
    timeout := timeout }

/-- True exactly when response.raise_for_status() raises, that is for the
4xx and 5xx status ranges. -/
def isErrorStatus (status : Nat) : Bool :=
  400 ≤ status && status < 600

/-- Truthiness of json_resp.get(error_key, False) on a decoded dict. -/
def embeddedError (error_key : String) : Json → Bool
  | .obj kvs => jsonTruthy ((dictGet kvs error_key).getD (.jbool false))
  | _ => false

/-- Client._decode_data: DecodeError when the body is not JSON, then
InvalidResponse when the decoded value is a dict whose error_key entry is
truthy, otherwise the decoded value unchanged. -/
def decodeData (error_key : String) (r : Response) : Except ClientError Json :=
  match r.jsonBody with
  | none => .error .decodeError
  | some j =>
    if embeddedError error_key j then .error (.invalidResponse r)
    else .ok j

/-- Response handling in Client._request (lines 87 to 92): raise
InvalidResponse carrying the raw response on an HTTP error status, and
only otherwise decode the body. -/
def handleResponse (error_key : String) (r : Response) : Except ClientError Json :=
  if isErrorStatus r.status_code then .error (.invalidResponse r)
  else decodeData error_key r

/-- Client._request end to end, with the network modelled as a function
from the outgoing request to the response it draws. -/
def clientRequest (error_key : String) (server : Server)
    (sign : String → String → Option StrMap → Option String → SignResult)
    (timeout : Nat) (method endpoint : String)
    (params : Option StrMap) (data : Option (List (String × PyVal)))
    (respond : SentRequest → Response) : Except ClientError Json :=
  let req := buildRequest server sign timeout method endpoint params data
  handleResponse error_key (respond req)

/-- C1: for every call and every sign hook, each of the keys headers,
params and data that the hook returns takes precedence in the outgoing
request, and each key the hook omits keeps the default built from the
call arguments: no headers, the caller params, the encoded body; in
particular a hook returning only the header X-Test : 1 sends that header
while the caller params and the encoded body still go out. -/
theorem sign_hook_merge (server : Server) (timeout : Nat)
    (method endpoint : String) (params : Option StrMap)
    (data : Option (List (String × PyVal)))
    (sign : String → String → Option StrMap → Option String → SignResult) :
    (∀ h, (sign method (url_path_for server endpoint).2 params
            (encode_data data)).headers = some h →
        (buildRequest server sign timeout method endpoint params data).headers
          = some h)
    ∧ ((sign method (url_path_for server endpoint).2 params
            (encode_data data)).headers = none →
        (buildRequest server sign timeout method endpoint params data).headers
          = none)
    ∧ (∀ p, (sign method (url_path_for server endpoint).2 params
            (encode_data data)).params = some p →
        (buildRequest server sign timeout method endpoint params data).params
          = some p)
    ∧ ((sign method (url_path_for server endpoint).2 params
            (encode_data data)).params = none →
        (buildRequest server sign timeout method endpoint params data).params
          = params)
    ∧ (∀ s, (sign method (url_path_for server endpoint).2 params
            (encode_data data)).data = some s →
        (buildRequest server sign timeout method endpoint params data).data
          = some s)
    ∧ ((sign method (url_path_for server endpoint).2 params
            (encode_data data)).data = none →
        (buildRequest server sign timeout method endpoint params data).data
          = encode_data data) := by
  refine ⟨?_, ?_, ?_, ?_, ?_, ?_⟩
  · intro h hh; simp [buildRequest, hh]
  · intro hh; simp [buildRequest, hh]
  · intro p hp; simp [buildRequest, hp]
  · intro hp; simp [buildRequest, hp]
  · intro s hs; simp [buildRequest, hs]
  · intro hs; simp [buildRequest, hs]

/-- Witness for C1: a hook returning only the X-Test header sends that
header while the caller params and the absent body are kept, and a hook
that supplies params and data overrides the caller params and the encoded
body with its own values. -/
theorem sign_hook_merge_witness :
    (buildRequest (mkServer "https" "api.example.com" (some "v2"))
        (fun _ _ _ _ => ⟨some [("X-Test", "1")], none, none⟩)
        30 "get" "ticker" (some [("page", "1")]) none).headers
      = some [("X-Test", "1")]
    ∧ (buildRequest (mkServer "https" "api.example.com" (some "v2"))
        (fun _ _ _ _ => ⟨some [("X-Test", "1")], none, none⟩)
        30 "get" "ticker" (some [("page", "1")]) none).params
      = some [("page", "1")]
    ∧ (buildRequest (mkServer "https" "api.example.com" (some "v2"))
        (fun _ _ _ _ => ⟨some [("X-Test", "1")], none, none⟩)
        30 "get" "ticker" (some [("page", "1")]) none).data
      = encode_data none
    ∧ (buildRequest (mkServer "https" "api.example.com" (some "v2"))
        (fun _ _ _ _ => ⟨none, some [("signed", "1")], some "sb"⟩)
        30 "post" "orders" (some [("page", "1")])
        (some [("amount", PyVal.pyint 2)])).params
      = some [("signed", "1")]
    ∧ (buildRequest (mkServer "https" "api.example.com" (some "v2"))
        (fun _ _ _ _ => ⟨none, some [("signed", "1")], some "sb"⟩)
        30 "post" "orders" (some [("page", "1")])
        (some [("amount", PyVal.pyint 2)])).data
      = some "sb" :=
  ⟨(sign_hook_merge (mkServer "https" "api.example.com" (some "v2")) 30
      "get" "ticker" (some [("page", "1")]) none
      (fun _ _ _ _ => ⟨some [("X-Test", "1")], none, none⟩)).1
      [("X-Test", "1")] rfl,
   (sign_hook_merge (mkServer "https" "api.example.com" (some "v2")) 30
      "get" "ticker" (some [("page", "1")]) none
      (fun _ _ _ _ => ⟨some [("X-Test", "1")], none, none⟩)).2.2.2.1 rfl,
   (sign_hook_merge (mkServer "https" "api.example.com" (some "v2")) 30
      "get" "ticker" (some [("page", "1")]) none
      (fun _ _ _ _ => ⟨some [("X-Test", "1")], none, none⟩)).2.2.2.2.2 rfl,
   (sign_hook_merge (mkServer "https" "api.example.com" (some "v2")) 30
      "post" "orders" (some [("page", "1")]) (some [("amount", PyVal.pyint 2)])
      (fun _ _ _ _ => ⟨none, some [("signed", "1")], some "sb"⟩)).2.2.1
      [("signed", "1")] rfl,
   (sign_hook_merge (mkServer "https" "api.example.com" (some "v2")) 30
      "post" "orders" (some [("page", "1")]) (some [("amount", PyVal.pyint 2)])
      (fun _ _ _ _ => ⟨none, some [("signed", "1")], some "sb"⟩)).2.2.2.2.1
      "sb" rfl⟩

/-- C2: whenever the network returns a response with a 4xx or 5xx status,
the dispatcher fails with InvalidResponse carrying that raw response; the
body is arbitrary (including one that is not JSON at all), so the error
path never consults or decodes it and never produces DecodeError. -/
theorem http_error_raises_invalid_response (error_key : String)
    (server : Server)
    (sign : String → String → Option StrMap → Option String → SignResult)
    (timeout : Nat) (method endpoint : String) (params : Option StrMap)
    (data : Option (List (String × PyVal))) (r : Response)
    (h4 : 400 ≤ r.status_code) (h6 : r.status_code < 600) :
    clientRequest error_key server sign timeout method endpoint params data
        (fun _ => r)
      = .error (.invalidResponse r) := by
  simp [clientRequest, handleResponse, isErrorStatus, h4, h6]

/-- Witness for C2: a status 500 response whose body is not JSON still
fails with InvalidResponse, not DecodeError. -/
theorem http_error_raises_invalid_response_witness :
    clientRequest "" (mkServer "https" "api.example.com" none)
        defaultSign 30 "get" "ticker" none none
        (fun _ => Response.mk 500 none)
      = .error (.invalidResponse (Response.mk 500 none)) :=
  http_error_raises_invalid_response "" (mkServer "https" "api.example.com" none)
    defaultSign 30 "get" "ticker" none none (Response.mk 500 none)
    (by decide) (by decide)

/-- C3: on an HTTP-success response the dispatcher fails with DecodeError
exactly when the body does not parse as JSON; a decoded dict whose
error-flag entry is truthy fails with InvalidResponse carrying the
response; any other decoded value is returned unchanged. -/
theorem decode_success_path (error_key : String) (r : Response)
    (hs : isErrorStatus r.status_code = false) :
    (handleResponse error_key r = .error .decodeError ↔ r.jsonBody = none)
    ∧ (∀ j, r.jsonBody = some j → embeddedError error_key j = true →
        handleResponse error_key r = .error (.invalidResponse r))
    ∧ (∀ j, r.jsonBody = some j → embeddedError error_key j = false →
        handleResponse error_key r = .ok j) := by
  refine ⟨?_, ?_, ?_⟩
  · rcases hb : r.jsonBody with _ | j
    · simp [handleResponse, hs, decodeData, hb]
    · by_cases he : embeddedError error_key j = true
      · simp [handleResponse, hs, decodeData, hb, he]
      · simp [handleResponse, hs, decodeData, hb, he]
  · intro j hb he
    simp [handleResponse, hs, decodeData, hb, he]
  · intro j hb he
    simp [handleResponse, hs, decodeData, hb, he]

/-- Witness for C3: with error_key error, a 200 response with body
containing result 42 is returned unchanged, and a 200 response with body
error true fails with InvalidResponse. -/
theorem decode_success_path_witness :
    handleResponse "error" (Response.mk 200 (some (Json.obj [("result", Json.num 42)])))
      = .ok (Json.obj [("result", Json.num 42)])
    ∧ handleResponse "error" (Response.mk 200 (some (Json.obj [("error", Json.jbool true)])))
      = .error (.invalidResponse
          (Response.mk 200 (some (Json.obj [("error", Json.jbool true)])))) :=
  ⟨(decode_success_path "error"
      (Response.mk 200 (some (Json.obj [("result", Json.num 42)]))) (by decide)).2.2
      (Json.obj [("result", Json.num 42)]) rfl (by decide),
   (decode_success_path "error"
      (Response.mk 200 (some (Json.obj [("error", Json.jbool true)]))) (by decide)).2.1
      (Json.obj [("error", Json.jbool true)]) rfl (by decide)⟩

/-- Class attribute default Client.rate_limit, in milliseconds. -/
def default_rate_limit : Int := 1000

/-- Class attribute default Client.enable_rate_limit. -/
def default_enable_rate_limit : Bool := true

/-- Client.throttle reduced to the sleep duration it requests, in
milliseconds: elapsed is now minus last_request_timestamp, and when
elapsed is under the rate limit the thread sleeps for rate_limit minus
elapsed milliseconds (the code passes delay / 1E3 seconds to time.sleep);
otherwise it does not sleep. Timestamps are integer milliseconds, on which
the float arithmetic of the code is exact. -/
def throttleDelay (rate_limit now last : Int) : Int :=
  let elapsed := now - last
  if elapsed < rate_limit then rate_limit - elapsed else 0

/-- C4: throttle sleeps for exactly rate_limit - elapsed milliseconds when
elapsed is under the rate limit and does not sleep at all otherwise, and
the default rate limit is 1000 milliseconds. -/
theorem throttle_delay_spec (rate_limit now last : Int) :
    (now - last < rate_limit →
      throttleDelay rate_limit now last = rate_limit - (now - last))
    ∧ (rate_limit ≤ now - last → throttleDelay rate_limit now last = 0)
    ∧ default_rate_limit = 1000 := by
  unfold throttleDelay
  exact ⟨fun h => by simp [h], fun h => by simp [not_lt.mpr h], rfl⟩

/-- Witness for C4 at elapsed 600 under the default limit (sleep 400 ms)
and elapsed 2000 over it (no sleep). -/
theorem throttle_delay_spec_witness :
    throttleDelay 1000 1600 1000 = 1000 - (1600 - 1000)
    ∧ throttleDelay 1000 3000 1000 = 0 :=
  ⟨(throttle_delay_spec 1000 1600 1000).1 (by decide),
   (throttle_delay_spec 1000 3000 1000).2.1 (by decide)⟩

/-- One _request call as it moves the clock and last_request_timestamp:
with rate limiting enabled the throttle sleep advances the clock by the
requested delay, and the resulting time is then recorded as
last_request_timestamp before the request is sent, so the returned value
is the start time of the call. Sleeping longer than requested or spending
time between throttle and recording can only increase this value, so the
exact-sleep model is the worst case for the spacing bound. -/
def requestStart (enable : Bool) (rate_limit last now : Int) : Int :=
  if enable then now + throttleDelay rate_limit now last else now

/-- Start times of sequential calls on one client: each list entry is how
much the clock advances between the previous recorded start and the moment
the next call enters _request (send duration plus caller think time). -/
def startTimes (enable : Bool) (rate_limit last clock : Int) :
    List Int → List Int
  | [] => []
  | gap :: rest =>
    let t := requestStart enable rate_limit last (clock + gap)
    t :: startTimes enable rate_limit t t rest

lemma requestStart_spacing (R t gap : Int) :
    t + R ≤ requestStart true R t (t + gap) := by
  simp only [requestStart, throttleDelay, if_true]
  split <;> omega

lemma startTimes_chain (R : Int) (gaps : List Int) :
    ∀ t, List.Chain (fun a b => a + R ≤ b) t (startTimes true R t t gaps) := by
  induction gaps with
  | nil => intro t; exact List.Chain.nil
  | cons gap rest ih =>
    intro t
    exact List.Chain.cons (requestStart_spacing R t gap) (ih _)

/-- C5: on one client with rate limiting enabled and rate limit R, the
recorded start times of sequentially issued calls are spaced at least R
milliseconds apart, because last_request_timestamp is recorded after the
throttle sleep and before sending. -/
theorem sequential_request_spacing (R last clock : Int) (gaps : List Int) :
    List.Chain' (fun a b => a + R ≤ b) (startTimes true R last clock gaps) := by
  cases gaps with
  | nil => trivial
  | cons gap rest => exact startTimes_chain R rest _

/-- Retry policy fields, as the urllib3 Retry constructor receives them in
base.py. -/
structure Retry where
  total : Nat
  backoff_factor : Nat
  status_forcelist : List Nat

/-- RETRY constant from base.py. -/
def RETRY : Retry :=
  ⟨3, 2, [400, 401, 403, 404, 408, 429, 500, 502, 503, 504]⟩

/-- Retry argument accepted by Client.__init__: the bool shorthand, an
attempt count, or a full policy object. -/
inductive RetryArg where
  | rbool (b : Bool)
  | rnum (n : Nat)
  | rpolicy (r : Retry)

/-- Retry normalization in Client.__init__: the argument is replaced by
the RETRY default exactly when it is the literal True, and is then handed
to HTTPAdapter as max_retries. -/
def installedRetry : Option RetryArg → Option RetryArg
  | some (.rbool true) => some (.rpolicy RETRY)
  | r => r

/-- C8: constructing the client with retry True installs the default
policy: 3 total attempts, backoff factor 2, and a retryable status set
containing 400, 401, 403, 404, 408, 429, 500, 502, 503 and 504. -/
theorem default_retry_policy :
    installedRetry (some (.rbool true)) = some (.rpolicy RETRY)
    ∧ RETRY.total = 3
    ∧ RETRY.backoff_factor = 2
    ∧ ([400, 401, 403, 404, 408, 429, 500, 502, 503, 504].all
        (fun c => RETRY.status_forcelist.contains c)) = true :=
  ⟨rfl, rfl, rfl, by decide⟩

/-- Values that can reach _Enum.check: None, an instance of the class, or
any other value, carried as the string that str renders it to. -/
inductive EnumInput (M : Type) where
  | pynone
  | member (m : M)
  | raw (s : String)

/-- Default _Enum._format_value: str(value).upper(). -/
def format_value (s : String) : String := s.toUpper

/-- The _Enum.check classmethod, parametric in the name table of the
concrete enum class (cls[k] as a lookup returning none on KeyError) and in
the _format_value of the class; on KeyError the code returns
cls._missing_(value), and the default Enum._missing_ returns None. -/
def enumCheck {M : Type} (lookup : String → Option M) (fmt : String → String) :
    EnumInput M → EnumInput M
  | .pynone => .pynone
  | .member m => .member m
  | .raw s =>
    match lookup (fmt s) with
    | some m => .member m
    | none => .pynone

/-- C10: check maps None to None, returns any instance of the class
unchanged, and is idempotent: applying check to the result of check
changes nothing, for every input. -/
theorem enum_check_idempotent {M : Type} (lookup : String → Option M)
    (fmt : String → String) :
    enumCheck lookup fmt .pynone = .pynone
    ∧ (∀ m : M, enumCheck lookup fmt (.member m) = .member m)
    ∧ ∀ v : EnumInput M,
        enumCheck lookup fmt (enumCheck lookup fmt v) = enumCheck lookup fmt v := by
  refine ⟨rfl, fun m => rfl, fun v => ?_⟩
  cases v with
  | pynone => rfl
  | member m => rfl
  | raw s => cases h : lookup (fmt s) <;> simp [enumCheck, h]
